import Mathlib

/-!
Shallow embedding of the authentication/authorization gate and the ratings
POST handlers of the pizza-taste-meter repository.

Sources embedded here:
- the auth library (interfaces `NetlifyUser`, `DbUser`, `AuthResult`, the
  response builders, `extractUser`, `requireAuth`, `requireAdmin`);
- the POST arm of the public ratings handler (netlify/functions/ratings.ts);
- the POST arm of the authenticated ratings handler.

Modelling conventions:
- JavaScript string operations used by the source (`startsWith`, `slice`,
  `split` on a one-character separator, global single-character `replace`)
  are given structural definitions over `String.data` so that concrete
  evaluation reduces in the kernel.
- The composite `JSON.parse(Buffer.from(seg, "base64").toString())` is an
  external runtime facility; it is a parameter `parseJson` of the
  environment, with `none` modelling a thrown parse error (caught by the
  try/catch of `extractUser`).
- The SQL collaborator is modelled as a list of rows; the two queries of
  the provisioner become `findUserByNetlifyId` and an append.  The flags
  `lookupFails` and `insertFails` model the corresponding awaited query
  throwing (network/timeout), which transfers control to the catch block.
- `lookups` and `inserts` instrument how many times each query was issued.
- JSON numbers coming out of `Number(...)` are modelled as `Option ℚ`,
  with `none` modelling NaN.  Fields of the untyped JSON payload are
  `Option`-valued since the runtime object may lack them.
- `Date.now()` is a parameter `now : Int` (milliseconds since epoch).
-/

/-- JS `s.startsWith(p)`. -/
def jsStartsWith (s p : String) : Bool :=
  p.data.isPrefixOf s.data

/-- JS `s.slice(n)` for a nonnegative index `n`. -/
def jsSlice (s : String) (n : Nat) : String :=
  String.mk (s.data.drop n)

/-- Splits a character list on a separator character, JS `split` style:
the result always has one more part than there are separators. -/
def splitOnCharList (sep : Char) : List Char → List (List Char)
  | [] => [[]]
  | c :: cs =>
    match splitOnCharList sep cs with
    | [] => [[c]]
    | r :: rs => if c = sep then [] :: r :: rs else (c :: r) :: rs

/-- JS `s.split(sep)` for a one-character separator. -/
def jsSplit (s : String) (sep : Char) : List String :=
  (splitOnCharList sep s.data).map String.mk

/-- JS `s.replace(/c/g, d)` for single characters `c`, `d`. -/
def jsReplaceChar (s : String) (c d : Char) : String :=
  String.mk (s.data.map (fun x => if x = c then d else x))

/-- The base64url-to-base64 translation performed on the middle token
segment: every dash becomes a plus and every underscore a slash (the two
global one-character replace calls of the source). -/
def base64urlToBase64 (s : String) : String :=
  jsReplaceChar (jsReplaceChar s '-' '+') '_' '/'

/-- `user_metadata` of the identity payload. -/
structure UserMetadata where
  full_name : Option String
deriving Repr, DecidableEq

/-- `app_metadata` of the identity payload. -/
structure AppMetadata where
  roles : Option (List String)
deriving Repr, DecidableEq

/-- The decoded JWT payload object.  Every field is optional because the
payload is untyped JSON at runtime.  `exp` is seconds since epoch. -/
structure Payload where
  sub : Option String
  email : Option String
  user_metadata : Option UserMetadata
  app_metadata : Option AppMetadata
  exp : Option Int
deriving Repr, DecidableEq

/-- The `NetlifyUser` interface of the auth library.  The fields are
`Option`-valued because they are copied from the untyped payload. -/
structure NetlifyUser where
  id : Option String
  email : Option String
  user_metadata : Option UserMetadata
  app_metadata : Option AppMetadata
deriving Repr, DecidableEq

/-- The `DbUser` interface (a row of the `users` table).  `netlify_id` and
`email` are `Option`-valued here because the inserted values come from the
untyped payload and may be NULL at runtime. -/
structure DbUser where
  id : String
  netlify_id : Option String
  email : Option String
  role : String
  created_at : String
deriving Repr, DecidableEq

/-- The `AuthResult` interface of the auth library. -/
structure AuthResult where
  user : Option NetlifyUser
  dbUser : Option DbUser
  error : Option String
deriving Repr, DecidableEq

/-- A row of the `ratings` table as used by the public handler. -/
structure PubRating where
  id : String
  survey_id : String
  score : ℚ
  timestamp : Int
deriving Repr, DecidableEq

/-- A row of the `ratings` table as used by the authenticated handler. -/
structure DbRating where
  id : String
  survey_id : String
  score : ℚ
  timestamp : Int
  user_id : Option String
deriving Repr, DecidableEq

/-- A response body.  `str` is a body whose exact JSON text the source
builds from fixed data; the rating constructors stand for
`JSON.stringify` applied to the returned row (keeping the row instead of
committing to a number-formatting model). -/
inductive RespBody where
  | str : String → RespBody
  | pubRating : PubRating → RespBody
  | dbRating : DbRating → RespBody
deriving Repr, DecidableEq

/-- An HTTP response: status code and JSON body. -/
structure Response where
  status : Nat
  body : RespBody
deriving Repr, DecidableEq

/-- `JSON.stringify` of an error object with a single `error` field. -/
def errorBody (message : String) : String :=
  "\x7b\"error\":\"" ++ message ++ "\"\x7d"

/-- The `unauthorizedResponse` helper of the auth library. -/
def unauthorizedResponse (message : String) : Response :=
  ⟨401, RespBody.str (errorBody message)⟩

/-- The `forbiddenResponse` helper of the auth library. -/
def forbiddenResponse (message : String) : Response :=
  ⟨403, RespBody.str (errorBody message)⟩

/-- An incoming request, restricted to the parts the embedded code reads:
the method and the `Authorization` header. -/
structure Request where
  method : String
  authHeader : Option String
deriving Repr, DecidableEq

/-- The environment of one gate evaluation: the external JSON decoding
facility, the wall clock, whether each awaited query throws, and the
row values the database generates on insert. -/
structure AuthEnv where
  parseJson : String → Option Payload
  now : Int
  lookupFails : Bool
  insertFails : Bool
  freshId : String
  freshCreatedAt : String

/-- The `SELECT ... FROM users WHERE netlify_id = $sub` query over the
modelled table.  A NULL comparison value matches no row. -/
def findUserByNetlifyId (store : List DbUser) (sub : Option String) : Option DbUser :=
  match sub with
  | none => none
  | some s => store.find? (fun u => u.netlify_id == some s)

/-- The JS condition `payload.exp && payload.exp * 1000 < Date.now()`:
a value of `0` is falsy, so the comparison is skipped for it. -/
def expCheck (exp : Option Int) (now : Int) : Bool :=
  match exp with
  | none => false
  | some e => e != 0 && decide (e * 1000 < now)

/-- Result of one `extractUser` evaluation: the returned `AuthResult`,
the table after the call, and how many lookup/insert queries ran. -/
structure ExtractOutcome where
  result : AuthResult
  store : List DbUser
  lookups : Nat
  inserts : Nat
deriving Repr, DecidableEq

/-- The `extractUser` function of the auth library: bearer-header check,
three-segment split, payload decode, expiry check, then find-or-create of
the local user row.  `none` from `parseJson`, a failing lookup, and a
failing insert all model a thrown exception reaching the catch block,
which yields the "Failed to verify token" result. -/
def extractUser (env : AuthEnv) (store : List DbUser) (req : Request) : ExtractOutcome :=
  match req.authHeader with
  | none => ⟨⟨none, none, none⟩, store, 0, 0⟩
  | some authHeader =>
    if !jsStartsWith authHeader "Bearer " then
      ⟨⟨none, none, none⟩, store, 0, 0⟩
    else
      match jsSplit (jsSlice authHeader 7) '.' with
      | [_seg0, seg1, _seg2] =>
        match env.parseJson (base64urlToBase64 seg1) with
        | none => ⟨⟨none, none, some "Failed to verify token"⟩, store, 0, 0⟩
        | some payload =>
          if expCheck payload.exp env.now then
            ⟨⟨none, none, some "Token expired"⟩, store, 0, 0⟩
          else
            let netlifyUser : NetlifyUser :=
              ⟨payload.sub, payload.email, payload.user_metadata, payload.app_metadata⟩
            if env.lookupFails then
              ⟨⟨none, none, some "Failed to verify token"⟩, store, 1, 0⟩
            else
              match findUserByNetlifyId store payload.sub with
              | some dbUser => ⟨⟨some netlifyUser, some dbUser, none⟩, store, 1, 0⟩
              | none =>
                if env.insertFails then
                  ⟨⟨none, none, some "Failed to verify token"⟩, store, 1, 1⟩
                else
                  let row : DbUser :=
                    ⟨env.freshId, payload.sub, payload.email, "user", env.freshCreatedAt⟩
                  ⟨⟨some netlifyUser, some row, none⟩, store ++ [row], 1, 1⟩
      | _ => ⟨⟨none, none, some "Invalid token format"⟩, store, 0, 0⟩

/-- The JS expression `auth.error || "Authentication required"`:
an absent or empty reason falls back to the default string. -/
def orDefault (error : Option String) (fallback : String) : String :=
  match error with
  | none => fallback
  | some m => if m = "" then fallback else m

/-- Result of a guard: the `AuthResult`, the optional terminal response,
and the instrumented store state and query counts. -/
structure GuardOutcome where
  auth : AuthResult
  errorResponse : Option Response
  store : List DbUser
  lookups : Nat
  inserts : Nat
deriving Repr, DecidableEq

/-- The `requireAuth` guard: runs `extractUser`; when the user or the
local row is absent it attaches a 401 response carrying the recorded
reason, defaulting to "Authentication required". -/
def requireAuth (env : AuthEnv) (store : List DbUser) (req : Request) : GuardOutcome :=
  let o := extractUser env store req
  match o.result.user, o.result.dbUser with
  | some _, some _ => ⟨o.result, none, o.store, o.lookups, o.inserts⟩
  | _, _ =>
    ⟨o.result, some (unauthorizedResponse (orDefault o.result.error "Authentication required")),
      o.store, o.lookups, o.inserts⟩

/-- The `requireAdmin` guard: runs `requireAuth`, propagates its error
response unchanged, and otherwise demands the role `"admin"` of the
local row (`auth.dbUser?.role !== "admin"` uses optional chaining). -/
def requireAdmin (env : AuthEnv) (store : List DbUser) (req : Request) : GuardOutcome :=
  let g := requireAuth env store req
  match g.errorResponse with
  | some r => ⟨g.auth, some r, g.store, g.lookups, g.inserts⟩
  | none =>
    if g.auth.dbUser.map DbUser.role ≠ some "admin" then
      ⟨g.auth, some (forbiddenResponse "Admin access required"), g.store, g.lookups, g.inserts⟩
    else
      ⟨g.auth, none, g.store, g.lookups, g.inserts⟩

/-- The request body of the ratings POST handlers, after the JS
conversions the handlers apply: `score` is the value of
`Number(body.score)` with `none` for NaN, `surveyId` is `body.surveyId`
with `none` for an absent field. -/
structure RatingsBody where
  score : Option ℚ
  surveyId : Option String
deriving Repr, DecidableEq

/-- JS falsiness of the `surveyId` value: absent or the empty string. -/
def strFalsy (s : Option String) : Bool :=
  match s with
  | none => true
  | some v => v == ""

/-- The validation condition `isNaN(score) || score < 1 || score > 10`. -/
def scoreInvalid (score : Option ℚ) : Bool :=
  match score with
  | none => true
  | some s => decide (s < 1) || decide (s > 10)

/-- POST arm of the public ratings handler (netlify/functions/ratings.ts).
`body = none` models `request.json()` throwing, which the catch block of
the handler turns into the 500 response.  Returns the response and the
ratings table after the call. -/
def ratingsPost (tsNow : Int) (freshId : String) (body : Option RatingsBody)
    (ratings : List PubRating) : Response × List PubRating :=
  match body with
  | none => (⟨500, RespBody.str (errorBody "Internal server error")⟩, ratings)
  | some b =>
    if strFalsy b.surveyId then
      (⟨400, RespBody.str (errorBody "surveyId is required")⟩, ratings)
    else if scoreInvalid b.score then
      (⟨400, RespBody.str (errorBody "Score must be between 1 and 10")⟩, ratings)
    else
      let newRating : PubRating := ⟨freshId, b.surveyId.getD "", b.score.getD 0, tsNow⟩
      (⟨201, RespBody.pubRating newRating⟩, ratings ++ [newRating])

/-- The UPSERT of the authenticated handler: `INSERT ... ON CONFLICT
(user_id, survey_id) ... DO UPDATE SET score, timestamp RETURNING ...`,
over the modelled ratings table. -/
def upsertRating (ratings : List DbRating) (sid : String) (s : ℚ) (ts : Int)
    (uid : String) (freshId : String) : DbRating × List DbRating :=
  match ratings.find? (fun r => r.user_id == some uid && r.survey_id == sid) with
  | some r =>
    let updated : DbRating := ⟨r.id, r.survey_id, s, ts, r.user_id⟩
    (updated,
      ratings.map (fun x => if x.user_id == some uid && x.survey_id == sid then updated else x))
  | none =>
    let row : DbRating := ⟨freshId, sid, s, ts, some uid⟩
    (row, ratings ++ [row])

/-- Result of the authenticated POST arm: the response, the users table
(which `requireAuth` may have extended), the ratings table, and the
instrumented query counts of the gate. -/
structure AuthPostOutcome where
  response : Response
  users : List DbUser
  ratings : List DbRating
  lookups : Nat
  inserts : Nat
deriving Repr, DecidableEq

/-- POST arm of the authenticated ratings handler (second document of
src/unnamed/part_001): `requireAuth` first, and its error response is
returned verbatim; then body parse, `surveyId` presence check, score
check, and the upsert.  The unreachable arm where the gate succeeded
without a local row models the thrown `auth.dbUser!.id` access reaching
the catch block. -/
def ratingsAuthPost (env : AuthEnv) (users : List DbUser) (req : Request)
    (body : Option RatingsBody) (tsNow : Int) (freshRatingId : String)
    (ratings : List DbRating) : AuthPostOutcome :=
  let g := requireAuth env users req
  match g.errorResponse with
  | some r => ⟨r, g.store, ratings, g.lookups, g.inserts⟩
  | none =>
    match body with
    | none =>
      ⟨⟨500, RespBody.str (errorBody "Internal server error")⟩,
        g.store, ratings, g.lookups, g.inserts⟩
    | some b =>
      if strFalsy b.surveyId then
        ⟨⟨400, RespBody.str (errorBody "surveyId is required")⟩,
          g.store, ratings, g.lookups, g.inserts⟩
      else if scoreInvalid b.score then
        ⟨⟨400, RespBody.str (errorBody "Score must be between 1 and 10")⟩,
          g.store, ratings, g.lookups, g.inserts⟩
      else
        match g.auth.dbUser with
        | none =>
          ⟨⟨500, RespBody.str (errorBody "Internal server error")⟩,
            g.store, ratings, g.lookups, g.inserts⟩
        | some d =>
          let res := upsertRating ratings (b.surveyId.getD "") (b.score.getD 0) tsNow d.id freshRatingId
          ⟨⟨201, RespBody.dbRating res.1⟩, g.store, res.2, g.lookups, g.inserts⟩

/-! Concrete fixtures used by counterexamples and witnesses. -/

/-- A decoder that fails on every segment (models a thrown JSON parse). -/
def noParse : String → Option Payload :=
  fun _ => none

/-- A decoder returning the given payload for every segment. -/
def constParse (p : Payload) : String → Option Payload :=
  fun _ => some p

/-- Environment builder with fixed database-generated values. -/
def mkEnv (parse : String → Option Payload) (now : Int) (lf insf : Bool) : AuthEnv :=
  ⟨parse, now, lf, insf, "fresh-id", "2026-01-01"⟩

/-- A payload with subject and email and no expiry. -/
def samplePayload : Payload :=
  ⟨some "sub-1", some "user@example.com", none, none, none⟩

/-- A payload whose `exp` field is the falsy value 0. -/
def expZeroPayload : Payload :=
  ⟨some "sub-1", some "user@example.com", none, none, some 0⟩

/-- A payload whose `exp` field is 1 second after epoch. -/
def expOnePayload : Payload :=
  ⟨some "sub-1", some "user@example.com", none, none, some 1⟩

/-- An existing local row for `samplePayload` with role `"user"`. -/
def userRow : DbUser :=
  ⟨"id-1", some "sub-1", some "user@example.com", "user", "t0"⟩

/-- An existing local row for `samplePayload` with role `"admin"`. -/
def adminRow : DbUser :=
  ⟨"id-2", some "sub-1", some "user@example.com", "admin", "t0"⟩

/-- A request carrying a three-segment bearer token. -/
def bearerReq : Request :=
  ⟨"POST", some "Bearer h.p1.s"⟩

/-- A request carrying a two-segment bearer token. -/
def twoSegReq : Request :=
  ⟨"POST", some "Bearer h.p1"⟩

/-! Claim theorems. -/

/-- C3: for every request whose Authorization header is absent or does not
start with "Bearer ", requireAuth returns a 401 response with body
error "Authentication required", and neither a lookup nor an insert runs
(the store is untouched). -/
theorem requireAuth_missing_bearer (env : AuthEnv) (store : List DbUser) (req : Request)
    (h : req.authHeader = none ∨
      ∃ a, req.authHeader = some a ∧ jsStartsWith a "Bearer " = false) :
    (requireAuth env store req).errorResponse =
        some ⟨401, RespBody.str (errorBody "Authentication required")⟩ ∧
      (requireAuth env store req).lookups = 0 ∧
      (requireAuth env store req).inserts = 0 ∧
      (requireAuth env store req).store = store := by
  rcases h with h | ⟨a, ha, hsw⟩
  · simp [requireAuth, extractUser, h, orDefault, unauthorizedResponse]
  · simp [requireAuth, extractUser, ha, hsw, orDefault, unauthorizedResponse]

/-- Witness for C3 at a concrete request without an Authorization header. -/
theorem requireAuth_missing_bearer_witness :
    (requireAuth (mkEnv noParse 0 false false) [] ⟨"GET", none⟩).errorResponse =
        some ⟨401, RespBody.str (errorBody "Authentication required")⟩ ∧
      (requireAuth (mkEnv noParse 0 false false) [] ⟨"GET", none⟩).lookups = 0 ∧
      (requireAuth (mkEnv noParse 0 false false) [] ⟨"GET", none⟩).inserts = 0 ∧
      (requireAuth (mkEnv noParse 0 false false) [] ⟨"GET", none⟩).store = [] :=
  requireAuth_missing_bearer _ _ _ (Or.inl rfl)

/-- C8: for every bearer token that does not split on the dot character
into exactly three segments, requireAuth returns a 401 response with body
error "Invalid token format" and performs no store lookup or insert. -/
theorem requireAuth_segment_count (env : AuthEnv) (store : List DbUser) (req : Request)
    (a : String) (ha : req.authHeader = some a) (hsw : jsStartsWith a "Bearer " = true)
    (hsplit : (jsSplit (jsSlice a 7) '.').length ≠ 3) :
    (requireAuth env store req).errorResponse =
        some ⟨401, RespBody.str (errorBody "Invalid token format")⟩ ∧
      (requireAuth env store req).lookups = 0 ∧
      (requireAuth env store req).inserts = 0 ∧
      (requireAuth env store req).store = store := by
  have hx : extractUser env store req =
      ⟨⟨none, none, some "Invalid token format"⟩, store, 0, 0⟩ := by
    unfold extractUser
    rw [ha]
    simp only [hsw, Bool.not_true, Bool.false_eq_true, if_false]
    split
    · next s0 s1 s2 heq => rw [heq] at hsplit; simp at hsplit
    · rfl
  simp [requireAuth, hx, orDefault, unauthorizedResponse]

/-- Witness for C8 at a concrete two-segment bearer token. -/
theorem requireAuth_segment_count_witness :
    (requireAuth (mkEnv noParse 0 false false) [] twoSegReq).errorResponse =
        some ⟨401, RespBody.str (errorBody "Invalid token format")⟩ ∧
      (requireAuth (mkEnv noParse 0 false false) [] twoSegReq).lookups = 0 ∧
      (requireAuth (mkEnv noParse 0 false false) [] twoSegReq).inserts = 0 ∧
      (requireAuth (mkEnv noParse 0 false false) [] twoSegReq).store = [] :=
  requireAuth_segment_count _ _ _ "Bearer h.p1" rfl (by decide) (by decide)

/-- C4 counterexample: a concrete three-segment token whose middle segment
does not parse as JSON is answered with reason "Failed to verify token",
not with the "Invalid token format" reason the claim states. -/
theorem requireAuth_parse_failure_counterexample :
    (requireAuth (mkEnv noParse 0 false false) [] bearerReq).errorResponse ≠
        some ⟨401, RespBody.str (errorBody "Invalid token format")⟩ ∧
      (requireAuth (mkEnv noParse 0 false false) [] bearerReq).errorResponse =
        some ⟨401, RespBody.str (errorBody "Failed to verify token")⟩ := by
  decide

/-- C4 (amended): for every bearer token with exactly three dot-separated
segments whose middle segment does not decode and parse as JSON, the gate
returns 401 with reason "Failed to verify token" (the catch-all), does not
attempt a store lookup or insert, and returns normally (no crash). -/
theorem requireAuth_parse_failure (env : AuthEnv) (store : List DbUser) (req : Request)
    (a s0 s1 s2 : String) (ha : req.authHeader = some a)
    (hsw : jsStartsWith a "Bearer " = true)
    (hsplit : jsSplit (jsSlice a 7) '.' = [s0, s1, s2])
    (hparse : env.parseJson (base64urlToBase64 s1) = none) :
    (requireAuth env store req).errorResponse =
        some ⟨401, RespBody.str (errorBody "Failed to verify token")⟩ ∧
      (requireAuth env store req).lookups = 0 ∧
      (requireAuth env store req).inserts = 0 ∧
      (requireAuth env store req).store = store := by
  have hx : extractUser env store req =
      ⟨⟨none, none, some "Failed to verify token"⟩, store, 0, 0⟩ := by
    unfold extractUser
    rw [ha]
    simp only [hsw, Bool.not_true, Bool.false_eq_true, if_false]
    rw [hsplit]
    simp only [hparse]
  simp [requireAuth, hx, orDefault, unauthorizedResponse]

/-- Witness for C4 (amended) at a concrete undecodable token. -/
theorem requireAuth_parse_failure_witness :
    (requireAuth (mkEnv noParse 0 false false) [] bearerReq).errorResponse =
        some ⟨401, RespBody.str (errorBody "Failed to verify token")⟩ ∧
      (requireAuth (mkEnv noParse 0 false false) [] bearerReq).lookups = 0 ∧
      (requireAuth (mkEnv noParse 0 false false) [] bearerReq).inserts = 0 ∧
      (requireAuth (mkEnv noParse 0 false false) [] bearerReq).store = [] :=
  requireAuth_parse_failure _ _ _ "Bearer h.p1.s" "h" "p1" "s" rfl (by decide) (by decide) rfl

/-- C5 counterexample: a concrete token whose payload carries exp = 0,
with 0 * 1000 strictly below the current time, yet the gate succeeds with
no error response: the JS truthiness guard skips the comparison for 0. -/
theorem requireAuth_exp_zero_counterexample :
    (0 : Int) * 1000 < 1700000000000 ∧
      (requireAuth (mkEnv (constParse expZeroPayload) 1700000000000 false false)
          [userRow] bearerReq).errorResponse = none := by
  decide

/-- C5 (amended): for every token whose decoded payload contains a nonzero
exp field with exp * 1000 strictly below the current wall-clock time in
milliseconds, requireAuth returns a 401 response with body error
"Token expired". -/
theorem requireAuth_token_expired (env : AuthEnv) (store : List DbUser) (req : Request)
    (a s0 s1 s2 : String) (payload : Payload) (e : Int)
    (ha : req.authHeader = some a) (hsw : jsStartsWith a "Bearer " = true)
    (hsplit : jsSplit (jsSlice a 7) '.' = [s0, s1, s2])
    (hparse : env.parseJson (base64urlToBase64 s1) = some payload)
    (hexp : payload.exp = some e) (hne : e ≠ 0) (hlt : e * 1000 < env.now) :
    (requireAuth env store req).errorResponse =
      some ⟨401, RespBody.str (errorBody "Token expired")⟩ := by
  have hchk : expCheck payload.exp env.now = true := by
    simp [expCheck, hexp, hne, hlt]
  have hx : extractUser env store req =
      ⟨⟨none, none, some "Token expired"⟩, store, 0, 0⟩ := by
    unfold extractUser
    rw [ha]
    simp only [hsw, Bool.not_true, Bool.false_eq_true, if_false]
    rw [hsplit]
    simp only [hparse, hchk, if_true]
  simp [requireAuth, hx, orDefault, unauthorizedResponse]

/-- Witness for C5 (amended) at a concrete expired token (exp = 1). -/
theorem requireAuth_token_expired_witness :
    (requireAuth (mkEnv (constParse expOnePayload) 1700000000000 false false)
        [] bearerReq).errorResponse =
      some ⟨401, RespBody.str (errorBody "Token expired")⟩ :=
  requireAuth_token_expired _ _ _ "Bearer h.p1.s" "h" "p1" "s" expOnePayload 1
    rfl (by decide) (by decide) rfl rfl (by decide) (by decide)

/-- Every error response attached by requireAuth carries status 401. -/
theorem requireAuth_error_status (env : AuthEnv) (store : List DbUser) (req : Request)
    (r : Response) (h : (requireAuth env store req).errorResponse = some r) :
    r.status = 401 := by
  unfold requireAuth at h
  rcases hu : (extractUser env store req).result.user with _ | u <;>
    rcases hd : (extractUser env store req).result.dbUser with _ | d <;>
      simp only [hu, hd, unauthorizedResponse, Option.some.injEq] at h
  · rw [← h]
  · rw [← h]
  · rw [← h]
  · exact Option.noConfusion h

/-- C6: every modelled exception in the decode/provision path (a JSON
parse failure, a failing lookup query, a failing insert query) is caught
inside extractUser and surfaced by requireAuth as a 401 response with body
error "Failed to verify token"; moreover every error response requireAuth
ever attaches has status 401, so no fault escapes as a 500. -/
theorem requireAuth_normalizes_faults (env : AuthEnv) (store : List DbUser) (req : Request)
    (a s0 s1 s2 : String)
    (ha : req.authHeader = some a) (hsw : jsStartsWith a "Bearer " = true)
    (hsplit : jsSplit (jsSlice a 7) '.' = [s0, s1, s2]) :
    (env.parseJson (base64urlToBase64 s1) = none →
      (requireAuth env store req).errorResponse =
        some ⟨401, RespBody.str (errorBody "Failed to verify token")⟩) ∧
    (∀ payload, env.parseJson (base64urlToBase64 s1) = some payload →
      expCheck payload.exp env.now = false → env.lookupFails = true →
      (requireAuth env store req).errorResponse =
        some ⟨401, RespBody.str (errorBody "Failed to verify token")⟩) ∧
    (∀ payload, env.parseJson (base64urlToBase64 s1) = some payload →
      expCheck payload.exp env.now = false → env.lookupFails = false →
      findUserByNetlifyId store payload.sub = none → env.insertFails = true →
      (requireAuth env store req).errorResponse =
        some ⟨401, RespBody.str (errorBody "Failed to verify token")⟩) ∧
    (∀ r, (requireAuth env store req).errorResponse = some r → r.status = 401) := by
  refine ⟨?_, ?_, ?_, fun r hr => requireAuth_error_status env store req r hr⟩
  · intro hparse
    exact (requireAuth_parse_failure env store req a s0 s1 s2 ha hsw hsplit hparse).1
  · intro payload hparse hexp hlf
    have hx : extractUser env store req =
        ⟨⟨none, none, some "Failed to verify token"⟩, store, 1, 0⟩ := by
      unfold extractUser
      rw [ha]
      simp only [hsw, Bool.not_true, Bool.false_eq_true, if_false]
      rw [hsplit]
      simp only [hparse, hexp, Bool.false_eq_true, if_false, hlf, if_true]
    simp [requireAuth, hx, orDefault, unauthorizedResponse]
  · intro payload hparse hexp hlf hmiss hins
    have hx : extractUser env store req =
        ⟨⟨none, none, some "Failed to verify token"⟩, store, 1, 1⟩ := by
      unfold extractUser
      rw [ha]
      simp only [hsw, Bool.not_true, Bool.false_eq_true, if_false]
      rw [hsplit]
      simp only [hparse, hexp, Bool.false_eq_true, if_false, hlf, hmiss, hins, if_true]
    simp [requireAuth, hx, orDefault, unauthorizedResponse]

/-- Witness for C6 at a concrete failing lookup. -/
theorem requireAuth_normalizes_faults_witness :
    (requireAuth (mkEnv (constParse samplePayload) 0 true false) [] bearerReq).errorResponse =
      some ⟨401, RespBody.str (errorBody "Failed to verify token")⟩ :=
  (requireAuth_normalizes_faults (mkEnv (constParse samplePayload) 0 true false) [] bearerReq
      "Bearer h.p1.s" "h" "p1" "s" rfl (by decide) (by decide)).2.1
    samplePayload rfl (by decide) rfl

/-- C7 counterexample: with the lookup query failing at a concrete input,
the gate answers with status 401 — which is not a 500-class status — and
reason "Failed to verify token", refuting the claimed 500-class report. -/
theorem requireAuth_store_fail_counterexample :
    (requireAuth (mkEnv (constParse samplePayload) 0 true false) [] bearerReq).errorResponse =
        some ⟨401, RespBody.str (errorBody "Failed to verify token")⟩ ∧
      ¬ (500 ≤ 401) := by
  decide

/-- C7 (amended): when the lookup query or the conditional insert query
fails, the gate reports a 401 response with reason "Failed to verify
token" rather than retrying: the failing query is attempted exactly
once. -/
theorem requireAuth_store_fail_no_retry (env : AuthEnv) (store : List DbUser) (req : Request)
    (a s0 s1 s2 : String) (payload : Payload)
    (ha : req.authHeader = some a) (hsw : jsStartsWith a "Bearer " = true)
    (hsplit : jsSplit (jsSlice a 7) '.' = [s0, s1, s2])
    (hparse : env.parseJson (base64urlToBase64 s1) = some payload)
    (hexp : expCheck payload.exp env.now = false) :
    (env.lookupFails = true →
      (requireAuth env store req).errorResponse =
          some ⟨401, RespBody.str (errorBody "Failed to verify token")⟩ ∧
        (requireAuth env store req).lookups = 1 ∧
        (requireAuth env store req).inserts = 0) ∧
    (env.lookupFails = false → env.insertFails = true →
      findUserByNetlifyId store payload.sub = none →
      (requireAuth env store req).errorResponse =
          some ⟨401, RespBody.str (errorBody "Failed to verify token")⟩ ∧
        (requireAuth env store req).lookups = 1 ∧
        (requireAuth env store req).inserts = 1) := by
  constructor
  · intro hlf
    have hx : extractUser env store req =
        ⟨⟨none, none, some "Failed to verify token"⟩, store, 1, 0⟩ := by
      unfold extractUser
      rw [ha]
      simp only [hsw, Bool.not_true, Bool.false_eq_true, if_false]
      rw [hsplit]
      simp only [hparse, hexp, Bool.false_eq_true, if_false, hlf, if_true]
    simp [requireAuth, hx, orDefault, unauthorizedResponse]
  · intro hlf hins hmiss
    have hx : extractUser env store req =
        ⟨⟨none, none, some "Failed to verify token"⟩, store, 1, 1⟩ := by
      unfold extractUser
      rw [ha]
      simp only [hsw, Bool.not_true, Bool.false_eq_true, if_false]
      rw [hsplit]
      simp only [hparse, hexp, Bool.false_eq_true, if_false, hlf, hmiss, hins, if_true]
    simp [requireAuth, hx, orDefault, unauthorizedResponse]

/-- Witness for C7 (amended) at a concrete failing insert. -/
theorem requireAuth_store_fail_no_retry_witness :
    (requireAuth (mkEnv (constParse samplePayload) 0 false true) [] bearerReq).errorResponse =
        some ⟨401, RespBody.str (errorBody "Failed to verify token")⟩ ∧
      (requireAuth (mkEnv (constParse samplePayload) 0 false true) [] bearerReq).lookups = 1 ∧
      (requireAuth (mkEnv (constParse samplePayload) 0 false true) [] bearerReq).inserts = 1 :=
  (requireAuth_store_fail_no_retry (mkEnv (constParse samplePayload) 0 false true) [] bearerReq
      "Bearer h.p1.s" "h" "p1" "s" samplePayload rfl (by decide) (by decide) rfl
      (by decide)).2 rfl rfl rfl

/-- C1: requireAdmin propagates a failing requireAuth outcome unchanged;
on an authenticated identity whose local role is not exactly "admin" it
attaches the 403 response with body error "Admin access required"; and
on role "admin" it returns the authenticated identity with no error
response. -/
theorem requireAdmin_spec (env : AuthEnv) (store : List DbUser) (req : Request) :
    ((requireAuth env store req).errorResponse.isSome = true →
      requireAdmin env store req = requireAuth env store req) ∧
    ((requireAuth env store req).errorResponse = none →
      (requireAuth env store req).auth.dbUser.map DbUser.role ≠ some "admin" →
      (requireAdmin env store req).auth = (requireAuth env store req).auth ∧
        (requireAdmin env store req).errorResponse =
          some ⟨403, RespBody.str (errorBody "Admin access required")⟩) ∧
    ((requireAuth env store req).errorResponse = none →
      (requireAuth env store req).auth.dbUser.map DbUser.role = some "admin" →
      (requireAdmin env store req).auth = (requireAuth env store req).auth ∧
        (requireAdmin env store req).errorResponse = none) := by
  refine ⟨?_, ?_, ?_⟩
  · intro h
    rcases hr : (requireAuth env store req).errorResponse with _ | r
    · rw [hr] at h; simp at h
    · simp only [requireAdmin, hr]
      rw [← hr]
  · intro h hrole
    simp only [requireAdmin, h]
    rw [if_pos hrole]
    exact ⟨rfl, rfl⟩
  · intro h hrole
    simp only [requireAdmin, h]
    rw [if_neg (fun hc => hc hrole)]
    exact ⟨rfl, rfl⟩

/-- Witness for C1 at concrete stores holding a "user" row and an
"admin" row for the same identity. -/
theorem requireAdmin_spec_witness :
    ((requireAdmin (mkEnv (constParse samplePayload) 0 false false) [userRow]
        bearerReq).errorResponse =
      some ⟨403, RespBody.str (errorBody "Admin access required")⟩) ∧
    ((requireAdmin (mkEnv (constParse samplePayload) 0 false false) [adminRow]
        bearerReq).errorResponse = none) ∧
    (requireAdmin (mkEnv noParse 0 false false) [] ⟨"GET", none⟩ =
      requireAuth (mkEnv noParse 0 false false) [] ⟨"GET", none⟩) := by
  refine ⟨?_, ?_, ?_⟩
  · exact ((requireAdmin_spec (mkEnv (constParse samplePayload) 0 false false) [userRow]
      bearerReq).2.1 (by decide) (by decide)).2
  · exact ((requireAdmin_spec (mkEnv (constParse samplePayload) 0 false false) [adminRow]
      bearerReq).2.2 (by decide) (by decide)).2
  · exact (requireAdmin_spec (mkEnv noParse 0 false false) [] ⟨"GET", none⟩).1 (by decide)

/-- A find? over an appended list falls through when the first part has
no hit. -/
theorem find?_append_of_none {α : Type} (p : α → Bool) (l1 l2 : List α)
    (h : l1.find? p = none) : (l1 ++ l2).find? p = l2.find? p := by
  rw [List.find?_append, h, Option.none_or]

/-- The store of an extractUser outcome always extends the incoming store
in place: existing rows are never modified or removed. -/
theorem extractUser_store_extends (env : AuthEnv) (store : List DbUser) (req : Request) :
    List.IsPrefix store (extractUser env store req).store := by
  unfold extractUser
  rcases req.authHeader with _ | a
  · exact List.prefix_refl _
  · dsimp only
    split
    · exact List.prefix_refl _
    · split
      · split
        · exact List.prefix_refl _
        · split
          · exact List.prefix_refl _
          · split
            · exact List.prefix_refl _
            · split
              · exact List.prefix_refl _
              · split
                · exact List.prefix_refl _
                · exact List.prefix_append _ _
      · exact List.prefix_refl _

/-- C2: for a well-formed, non-expired token whose subject has no local
row, requireAuth performs exactly one insert, producing a row with that
subject, the claimed email, and role "user", and returns that row with no
error; an identical second call on the resulting store performs zero
inserts, returns the same row, and leaves the store unchanged; and no
call ever modifies or removes an existing row (the incoming store stays a
prefix of the outgoing store). -/
theorem requireAuth_find_or_create (env : AuthEnv) (store : List DbUser) (req : Request)
    (a s0 s1 s2 : String) (payload : Payload) (s em : String)
    (ha : req.authHeader = some a) (hsw : jsStartsWith a "Bearer " = true)
    (hsplit : jsSplit (jsSlice a 7) '.' = [s0, s1, s2])
    (hparse : env.parseJson (base64urlToBase64 s1) = some payload)
    (hexp : expCheck payload.exp env.now = false)
    (hsub : payload.sub = some s) (hem : payload.email = some em)
    (hlf : env.lookupFails = false) (hif : env.insertFails = false)
    (hmiss : findUserByNetlifyId store (some s) = none) :
    (requireAuth env store req).inserts = 1 ∧
      (requireAuth env store req).auth.dbUser =
        some ⟨env.freshId, some s, some em, "user", env.freshCreatedAt⟩ ∧
      (requireAuth env store req).errorResponse = none ∧
      (requireAuth env store req).store =
        store ++ [⟨env.freshId, some s, some em, "user", env.freshCreatedAt⟩] ∧
      (requireAuth env ((requireAuth env store req).store) req).inserts = 0 ∧
      (requireAuth env ((requireAuth env store req).store) req).auth.dbUser =
        some ⟨env.freshId, some s, some em, "user", env.freshCreatedAt⟩ ∧
      (requireAuth env ((requireAuth env store req).store) req).errorResponse = none ∧
      (requireAuth env ((requireAuth env store req).store) req).store =
        (requireAuth env store req).store ∧
      (∀ env2 store2 req2, List.IsPrefix store2 (extractUser env2 store2 req2).store) := by
  have h1 : extractUser env store req =
      ⟨⟨some ⟨some s, some em, payload.user_metadata, payload.app_metadata⟩,
        some ⟨env.freshId, some s, some em, "user", env.freshCreatedAt⟩, none⟩,
        store ++ [⟨env.freshId, some s, some em, "user", env.freshCreatedAt⟩], 1, 1⟩ := by
    unfold extractUser
    rw [ha]
    simp only [hsw, Bool.not_true, Bool.false_eq_true, if_false]
    rw [hsplit]
    simp only [hparse, hexp, Bool.false_eq_true, if_false, hlf, hsub, hem, hmiss, hif]
  have hq1 : requireAuth env store req =
      ⟨⟨some ⟨some s, some em, payload.user_metadata, payload.app_metadata⟩,
        some ⟨env.freshId, some s, some em, "user", env.freshCreatedAt⟩, none⟩, none,
        store ++ [⟨env.freshId, some s, some em, "user", env.freshCreatedAt⟩], 1, 1⟩ := by
    simp [requireAuth, h1]
  have hm : store.find? (fun u => u.netlify_id == some s) = none := by
    simpa [findUserByNetlifyId] using hmiss
  have hfind2 : findUserByNetlifyId
      (store ++ [(⟨env.freshId, some s, some em, "user", env.freshCreatedAt⟩ : DbUser)])
      (some s) = some ⟨env.freshId, some s, some em, "user", env.freshCreatedAt⟩ := by
    simp [findUserByNetlifyId, List.find?_append, hm, List.find?]
  have h2 : extractUser env
      (store ++ [(⟨env.freshId, some s, some em, "user", env.freshCreatedAt⟩ : DbUser)]) req =
      ⟨⟨some ⟨some s, some em, payload.user_metadata, payload.app_metadata⟩,
        some ⟨env.freshId, some s, some em, "user", env.freshCreatedAt⟩, none⟩,
        store ++ [⟨env.freshId, some s, some em, "user", env.freshCreatedAt⟩], 1, 0⟩ := by
    unfold extractUser
    rw [ha]
    simp only [hsw, Bool.not_true, Bool.false_eq_true, if_false]
    rw [hsplit]
    simp only [hparse, hexp, Bool.false_eq_true, if_false, hlf, hsub, hem, hfind2]
  have hq2 : requireAuth env
      (store ++ [(⟨env.freshId, some s, some em, "user", env.freshCreatedAt⟩ : DbUser)]) req =
      ⟨⟨some ⟨some s, some em, payload.user_metadata, payload.app_metadata⟩,
        some ⟨env.freshId, some s, some em, "user", env.freshCreatedAt⟩, none⟩, none,
        store ++ [⟨env.freshId, some s, some em, "user", env.freshCreatedAt⟩], 1, 0⟩ := by
    simp [requireAuth, h2]
  rw [hq1]
  refine ⟨rfl, rfl, rfl, rfl, ?_, ?_, ?_, ?_, fun env2 store2 req2 =>
    extractUser_store_extends env2 store2 req2⟩
  · rw [hq2]
  · rw [hq2]
  · rw [hq2]
  · rw [hq2]

/-- Witness for C2 at a concrete first-time token over the empty store. -/
theorem requireAuth_find_or_create_witness :
    (requireAuth (mkEnv (constParse samplePayload) 0 false false) [] bearerReq).inserts = 1 ∧
      (requireAuth (mkEnv (constParse samplePayload) 0 false false) [] bearerReq).auth.dbUser =
        some ⟨"fresh-id", some "sub-1", some "user@example.com", "user", "2026-01-01"⟩ ∧
      (requireAuth (mkEnv (constParse samplePayload) 0 false false)
        ((requireAuth (mkEnv (constParse samplePayload) 0 false false) [] bearerReq).store)
        bearerReq).inserts = 0 := by
  have h := requireAuth_find_or_create (mkEnv (constParse samplePayload) 0 false false) []
    bearerReq "Bearer h.p1.s" "h" "p1" "s" samplePayload "sub-1" "user@example.com"
    rfl (by decide) (by decide) rfl (by decide) rfl rfl rfl rfl rfl
  exact ⟨h.1, h.2.1, h.2.2.2.2.1⟩

/-- A successful requireAuth always carries a local user row. -/
theorem requireAuth_success_dbUser (env : AuthEnv) (store : List DbUser) (req : Request)
    (h : (requireAuth env store req).errorResponse = none) :
    ∃ d, (requireAuth env store req).auth.dbUser = some d := by
  unfold requireAuth at h ⊢
  rcases hu : (extractUser env store req).result.user with _ | u <;>
    rcases hd : (extractUser env store req).result.dbUser with _ | d <;>
      simp only [hu, hd] at h ⊢
  all_goals first
  | exact Option.noConfusion h
  | exact ⟨_, rfl⟩

/-- The row returned by the upsert is in the resulting table. -/
theorem upsertRating_mem (ratings : List DbRating) (sid : String) (s : ℚ) (ts : Int)
    (uid freshId : String) :
    (upsertRating ratings sid s ts uid freshId).1 ∈
      (upsertRating ratings sid s ts uid freshId).2 := by
  unfold upsertRating
  rcases hf : ratings.find? (fun r => r.user_id == some uid && r.survey_id == sid) with _ | r
  · simp [hf]
  · have hm : r ∈ ratings := List.mem_of_find?_eq_some hf
    have hp := List.find?_some hf
    simp only [hf]
    exact List.mem_map.mpr ⟨r, hm, by simp [hp]⟩

/-- The row returned by the upsert carries the submitted score. -/
theorem upsertRating_score (ratings : List DbRating) (sid : String) (s : ℚ) (ts : Int)
    (uid freshId : String) :
    (upsertRating ratings sid s ts uid freshId).1.score = s := by
  unfold upsertRating
  rcases hf : ratings.find? (fun r => r.user_id == some uid && r.survey_id == sid) with _ | r <;>
    simp [hf]

/-- C9 counterexample: an unauthenticated POST to the authenticated
ratings handler carrying score 11 (and a surveyId) is answered 401
Authentication required by the gate, not by the claimed 400 score
response. -/
theorem ratingsAuthPost_gate_first_counterexample :
    (ratingsAuthPost (mkEnv noParse 0 false false) [] ⟨"POST", none⟩
        (some ⟨some 11, some "s1"⟩) 0 "r1" []).response =
        ⟨401, RespBody.str (errorBody "Authentication required")⟩ ∧
      (ratingsAuthPost (mkEnv noParse 0 false false) [] ⟨"POST", none⟩
        (some ⟨some 11, some "s1"⟩) 0 "r1" []).response.status ≠ 400 := by
  decide

/-- C9 (amended): for a POST body with a present surveyId and a score
outside 1..10, the public ratings handler returns the 400 score response
— it consults no authentication state at all; the authenticated handler
runs requireAuth first: a failing gate makes it return the gate response
verbatim (regardless of the score), and only with a succeeding gate does
the 400 score response fire. -/
theorem ratings_validation_order (tsNow : Int) (freshId : String) (b : RatingsBody)
    (ratings : List PubRating)
    (hsid : strFalsy b.surveyId = false) (hsc : scoreInvalid b.score = true) :
    ((ratingsPost tsNow freshId (some b) ratings).1 =
        ⟨400, RespBody.str (errorBody "Score must be between 1 and 10")⟩) ∧
      (∀ env users req tsNow2 freshRatingId ratings2 r,
        (requireAuth env users req).errorResponse = some r →
        (ratingsAuthPost env users req (some b) tsNow2 freshRatingId ratings2).response = r) ∧
      (∀ env users req tsNow2 freshRatingId ratings2,
        (requireAuth env users req).errorResponse = none →
        (ratingsAuthPost env users req (some b) tsNow2 freshRatingId ratings2).response =
          ⟨400, RespBody.str (errorBody "Score must be between 1 and 10")⟩) := by
  refine ⟨?_, ?_, ?_⟩
  · simp [ratingsPost, hsid, hsc]
  · intro env users req tsNow2 freshRatingId ratings2 r hr
    simp [ratingsAuthPost, hr]
  · intro env users req tsNow2 freshRatingId ratings2 herr
    simp [ratingsAuthPost, herr, hsid, hsc]

/-- Witness for C9 (amended): score 11 at the public handler, at the
authenticated handler behind a failing gate, and at the authenticated
handler behind a succeeding gate. -/
theorem ratings_validation_order_witness :
    ((ratingsPost 0 "r1" (some ⟨some 11, some "s1"⟩) []).1 =
        ⟨400, RespBody.str (errorBody "Score must be between 1 and 10")⟩) ∧
      ((ratingsAuthPost (mkEnv noParse 0 false false) [] ⟨"POST", none⟩
          (some ⟨some 11, some "s1"⟩) 0 "r1" []).response =
        ⟨401, RespBody.str (errorBody "Authentication required")⟩) ∧
      ((ratingsAuthPost (mkEnv (constParse samplePayload) 0 false false) [userRow] bearerReq
          (some ⟨some 11, some "s1"⟩) 0 "r1" []).response =
        ⟨400, RespBody.str (errorBody "Score must be between 1 and 10")⟩) := by
  have h := ratings_validation_order 0 "r1" ⟨some 11, some "s1"⟩ [] (by decide) (by decide)
  refine ⟨h.1, ?_, ?_⟩
  · exact h.2.1 (mkEnv noParse 0 false false) [] ⟨"POST", none⟩ 0 "r1" []
      ⟨401, RespBody.str (errorBody "Authentication required")⟩ (by decide)
  · exact h.2.2 (mkEnv (constParse samplePayload) 0 false false) [userRow] bearerReq 0 "r1" []
      (by decide)

/-- C10: the score validation of both ratings POST handlers accepts
exactly the numeric scores s with 1 <= s <= 10 (integrality is never
enforced) and rejects exactly NaN and out-of-range scores: with a present
surveyId, an invalid score yields the 400 score response and no stored
rating, while a valid score (for the authenticated handler: behind a
succeeding gate) yields a 201 response whose rating carries that score
and is stored. -/
theorem ratings_score_range :
    (∀ s : ℚ, scoreInvalid (some s) = false ↔ 1 ≤ s ∧ s ≤ 10) ∧
      scoreInvalid none = true ∧
      (∀ (tsNow : Int) (freshId sid : String) (score : Option ℚ)
          (ratings : List PubRating), sid ≠ "" →
        (scoreInvalid score = true →
          ratingsPost tsNow freshId (some ⟨score, some sid⟩) ratings =
            (⟨400, RespBody.str (errorBody "Score must be between 1 and 10")⟩, ratings)) ∧
        (∀ s : ℚ, score = some s → scoreInvalid score = false →
          ratingsPost tsNow freshId (some ⟨score, some sid⟩) ratings =
            (⟨201, RespBody.pubRating ⟨freshId, sid, s, tsNow⟩⟩,
              ratings ++ [⟨freshId, sid, s, tsNow⟩]))) ∧
      (∀ (env : AuthEnv) (users : List DbUser) (req : Request) (tsNow : Int)
          (freshRatingId sid : String) (score : Option ℚ) (ratings : List DbRating),
        sid ≠ "" → (requireAuth env users req).errorResponse = none →
        (scoreInvalid score = true →
          (ratingsAuthPost env users req (some ⟨score, some sid⟩) tsNow freshRatingId
              ratings).response =
            ⟨400, RespBody.str (errorBody "Score must be between 1 and 10")⟩ ∧
          (ratingsAuthPost env users req (some ⟨score, some sid⟩) tsNow freshRatingId
              ratings).ratings = ratings) ∧
        (∀ s : ℚ, score = some s → scoreInvalid score = false →
          ∃ rating,
            (ratingsAuthPost env users req (some ⟨score, some sid⟩) tsNow freshRatingId
                ratings).response = ⟨201, RespBody.dbRating rating⟩ ∧
              rating.score = s ∧
              rating ∈ (ratingsAuthPost env users req (some ⟨score, some sid⟩) tsNow
                freshRatingId ratings).ratings)) := by
  refine ⟨?_, rfl, ?_, ?_⟩
  · intro s
    simp [scoreInvalid, not_lt]
  · intro tsNow freshId sid score ratings hsid
    constructor
    · intro hsc
      simp [ratingsPost, strFalsy, hsid, hsc]
    · intro s hss hsc
      subst hss
      simp [ratingsPost, strFalsy, hsid, hsc]
  · intro env users req tsNow freshRatingId sid score ratings hsid herr
    obtain ⟨d, hd⟩ := requireAuth_success_dbUser env users req herr
    constructor
    · intro hsc
      constructor
      · simp [ratingsAuthPost, herr, strFalsy, hsid, hsc]
      · simp [ratingsAuthPost, herr, strFalsy, hsid, hsc]
    · intro s hss hsc
      subst hss
      refine ⟨(upsertRating ratings sid s tsNow d.id freshRatingId).1, ?_,
        upsertRating_score ratings sid s tsNow d.id freshRatingId, ?_⟩
      · simp [ratingsAuthPost, herr, strFalsy, hsid, hsc, hd]
      · have hr : (ratingsAuthPost env users req (some ⟨some s, some sid⟩) tsNow
            freshRatingId ratings).ratings =
            (upsertRating ratings sid s tsNow d.id freshRatingId).2 := by
          simp [ratingsAuthPost, herr, strFalsy, hsid, hsc, hd]
        rw [hr]
        exact upsertRating_mem ratings sid s tsNow d.id freshRatingId

/-- Witness for C10: the non-integral score 5.5 is accepted and stored
with a 201 by the public handler, and a NaN score draws the 400 score
response. -/
theorem ratings_score_range_witness :
    (ratingsPost 0 "r1" (some ⟨some (11 / 2 : ℚ), some "s1"⟩) [] =
        (⟨201, RespBody.pubRating ⟨"r1", "s1", 11 / 2, 0⟩⟩, [⟨"r1", "s1", 11 / 2, 0⟩])) ∧
      (ratingsPost 0 "r1" (some ⟨none, some "s1"⟩) [] =
        (⟨400, RespBody.str (errorBody "Score must be between 1 and 10")⟩, [])) := by
  have h := ratings_score_range
  constructor
  · have h2 := (h.2.2.1 0 "r1" "s1" (some (11 / 2 : ℚ)) [] (by decide)).2
      (11 / 2 : ℚ) rfl (by norm_num [scoreInvalid])
    exact h2
  · exact (h.2.2.1 0 "r1" "s1" none [] (by decide)).1 rfl
